import Mathlib

/-!
Verification development for scraper-red-sevilla-sin-gluten (src/scraper.py).

The HTML document tree is modelled as an inductive `Node`; the
BeautifulSoup operations used by the code (`.text`, `find`, `find_all`,
`.parent`, `.get('class', [])`) are modelled as recursive tree functions.
The pagination loop is modelled with explicit fuel (the Python loop has no
termination guarantee) and its result is instrumented with the list of
pages fetched, so that temporal claims about which pages are fetched can
be stated.  HTTP is modelled as an oracle from page numbers to either a
transport error or a status code plus a parsed document.
-/

/-- A parsed HTML node: an element with a tag, a class list and children,
or a text node.  Mirrors the navigable tree BeautifulSoup produces. -/
inductive Node where
  | elem (tag : String) (classes : List String) (children : List Node) : Node
  | text (s : String) : Node
deriving Repr

/-- Class list of a node (`node.get('class', [])` in the source); text
nodes have none. -/
def Node.classes : Node → List String
  | .text _ => []
  | .elem _ cs _ => cs

mutual

/-- Concatenated text of a node (`element.text` in BeautifulSoup):
all text descendants, in document order. -/
def Node.innerText : Node → String
  | .text s => s
  | .elem _ _ children => innerTextList children

/-- Concatenated text of a list of sibling nodes, in order. -/
def innerTextList : List Node → String
  | [] => ""
  | n :: ns => Node.innerText n ++ innerTextList ns

end

mutual

/-- First node with a tag in `tags` among a node list and all its
descendants, depth-first preorder (document order), as in
`element.find([t1, t2])`. -/
def findFirstIn (tags : List String) : List Node → Option Node
  | [] => none
  | n :: ns =>
    match findSelfOr tags n with
    | some r => some r
    | none => findFirstIn tags ns

/-- Preorder search of one node and its descendants for a tag in `tags`. -/
def findSelfOr (tags : List String) : Node → Option Node
  | .text _ => none
  | .elem t cs children =>
    if t ∈ tags then some (Node.elem t cs children) else findFirstIn tags children

end

/-- `element.find([...])`: first descendant (not the element itself) whose
tag is in `tags`, in document order. -/
def Node.findTag (tags : List String) : Node → Option Node
  | .text _ => none
  | .elem _ _ children => findFirstIn tags children

mutual

/-- All nodes with tag `tag` in a node list and its descendants, preorder. -/
def allTagIn (tag : String) : List Node → List Node
  | [] => []
  | n :: ns => allTagOf tag n ++ allTagIn tag ns

/-- All nodes with tag `tag` in one node and its descendants, preorder. -/
def allTagOf (tag : String) : Node → List Node
  | .text _ => []
  | .elem t cs children =>
    (if t = tag then [Node.elem t cs children] else []) ++ allTagIn tag children

end

/-- `element.find_all(tag)`: all descendants with that tag, document order. -/
def Node.findAllTag (tag : String) : Node → List Node
  | .text _ => []
  | .elem _ _ children => allTagIn tag children

mutual

/-- All descendants with tag `tag` in a node list, paired with their
immediate parent node; `parent` is the common parent of the listed nodes. -/
def pairsIn (tag : String) (parent : Node) : List Node → List (Node × Node)
  | [] => []
  | n :: ns => pairsOf tag parent n ++ pairsIn tag parent ns

/-- Descendants with tag `tag` of one node (the node itself included),
paired with their immediate parent. -/
def pairsOf (tag : String) (parent : Node) : Node → List (Node × Node)
  | .text _ => []
  | .elem t cs children =>
    (if t = tag then [(Node.elem t cs children, parent)] else []) ++
      pairsIn tag (Node.elem t cs children) children

end

/-- `element.find_all(tag)` with each hit paired with its `.parent`. -/
def Node.findAllWithParent (tag : String) (n : Node) : List (Node × Node) :=
  match n with
  | .text _ => []
  | .elem t cs children => pairsIn tag (Node.elem t cs children) children

/-- Python `str.strip()`: remove leading and trailing whitespace
characters.  Modelled structurally over the character list. -/
def pyStrip (s : String) : String :=
  ⟨((s.data.dropWhile Char.isWhitespace).reverse.dropWhile Char.isWhitespace).reverse⟩

/-- Python `s.split('\n')[0]`: the prefix of `s` before the first line
break (all of `s` when it has none). -/
def pyFirstLine (s : String) : String :=
  ⟨s.data.takeWhile (fun c => c ≠ '\n')⟩

/-- The parent-class test of the address loop in
`extract_business_from_article`: the immediate parent carries one of the
three recognized container markers. -/
def acceptedParent (parent : Node) : Bool :=
  parent.classes.contains "textof" ||
    parent.classes.contains "entry-content" ||
    parent.classes.contains "entry-summary"

/-- The body of the `for p in p_elements` loop of
`extract_business_from_article`: first paragraph whose parent is accepted
and whose stripped text, and its first line, are non-empty; its first
line (stripped) is the address, and the loop breaks there.  Returns `""`
when no paragraph qualifies. -/
def addressFromPairs : List (Node × Node) → String
  | [] => ""
  | (p, parent) :: rest =>
    if acceptedParent parent then
      let t := pyStrip p.innerText
      if t ≠ "" then
        let firstLine := pyStrip (pyFirstLine t)
        if firstLine ≠ "" then firstLine else addressFromPairs rest
      else addressFromPairs rest
    else addressFromPairs rest

/-- Address extraction of `extract_business_from_article`: scan
`article.find_all('p')` with parents, in document order. -/
def extractAddress (article : Node) : String :=
  addressFromPairs (article.findAllWithParent "p")

/-- One extracted listing: the dict `{'Name': ..., 'Address': ...}`. -/
structure Business where
  name : String
  address : String
deriving DecidableEq, Repr

/-- The name derived from the title element: text of a nested hyperlink
when present, otherwise the element's own text, stripped
(`title_link.text.strip() if title_link else title_element.text.strip()`). -/
def derivedName (titleElement : Node) : String :=
  match titleElement.findTag ["a"] with
  | some link => pyStrip link.innerText
  | none => pyStrip titleElement.innerText

/-- `extract_business_from_article`: fail when there is no h2/h3 heading
or the derived name is empty; otherwise return the listing with the
best-effort address. -/
def extract_business_from_article (article : Node) : Option Business :=
  match article.findTag ["h2", "h3"] with
  | none => none
  | some titleElement =>
    let business_name := derivedName titleElement
    if business_name = "" then none
    else some ⟨business_name, extractAddress article⟩

/-- The fixed category base URL of `get_page_content`. -/
def base_url : String :=
  "https://redsevillasingluten.org/category/establecimientos-de-la-red/"

/-- URL construction of `get_page_content`: page 1 is the bare base URL,
page N is `base_url ++ "page/" ++ N ++ "/"` otherwise. -/
def build_url (page_number : Nat) : String :=
  if page_number = 1 then base_url
  else base_url ++ "page/" ++ toString page_number ++ "/"

/-- The `try` block of `get_page_content` over an HTTP oracle giving, per
page number, either a transport error (a raised `RequestException`) or a
status code and parsed body.  Status 404 returns `none`; other error
statuses make `raise_for_status` throw; success returns the document. -/
def get_page_content_try (oracle : Nat → Except String (Nat × Node))
    (page : Nat) : Except String (Option Node) :=
  match oracle page with
  | .error e => .error e
  | .ok (status, doc) =>
    if status = 404 then .ok none
    else if 400 ≤ status ∧ status < 600 then .error "HTTPError"
    else .ok (some doc)

/-- `get_page_content`: the `try` block with every `RequestException`
caught and converted to `None`. -/
def get_page_content (oracle : Nat → Except String (Nat × Node))
    (page : Nat) : Option Node :=
  match get_page_content_try oracle page with
  | .ok r => r
  | .error _ => none

/-- Result of a pagination run: the accumulated listings (the source's
return value), instrumented with the pages fetched in order and whether
the loop reached a `break` (rather than running out of fuel). -/
structure ScrapeResult where
  businesses : List Business
  pagesFetched : List Nat
  finished : Bool
deriving DecidableEq, Repr

/-- The `while True` loop of `scrape_all_pages`, with explicit fuel.
`f` is the page fetcher (`get_page_content` applied to an oracle);
arguments after the fuel are the current page, `empty_page_count`, the
accumulated `businesses`, and the pages fetched so far.  The empty-page
threshold is the source's hardcoded `max_empty_pages = 2`. -/
def scrapeAux (f : Nat → Option Node) :
    Nat → Nat → Nat → List Business → List Nat → ScrapeResult
  | 0, _, _, acc, fetched => ⟨acc, fetched, false⟩
  | fuel + 1, page, emptyCount, acc, fetched =>
    match f page with
    | none => ⟨acc, fetched ++ [page], true⟩
    | some soup =>
      let articles := soup.findAllTag "article"
      if articles.isEmpty then
        if emptyCount + 1 ≥ 2 then ⟨acc, fetched ++ [page], true⟩
        else scrapeAux f fuel (page + 1) (emptyCount + 1) acc (fetched ++ [page])
      else
        scrapeAux f fuel (page + 1) 0
          (acc ++ articles.filterMap extract_business_from_article)
          (fetched ++ [page])

/-- `scrape_all_pages`: run the loop from page 1 with a zero counter. -/
def scrape_all_pages (oracle : Nat → Except String (Nat × Node))
    (fuel : Nat) : ScrapeResult :=
  scrapeAux (get_page_content oracle) fuel 1 0 [] []

/-- `save_to_csv`, at the row level: an empty input writes no file
(`none`); otherwise the file holds the fixed header row followed by one
row per listing in input order. -/
def save_to_csv (businesses : List Business) : Option (List (List String)) :=
  if businesses.isEmpty then none
  else some (["Name", "Address"] :: businesses.map (fun b => [b.name, b.address]))

/-- The source's `main`: scrape all pages, then save; its value is the
accumulated listings and the rows written (if any).  `Except` carries any
uncaught exception. -/
def mainRun (oracle : Nat → Except String (Nat × Node)) (fuel : Nat) :
    Except String (List Business × Option (List (List String))) := do
  let result := scrape_all_pages oracle fuel
  let fileRows := save_to_csv result.businesses
  return (result.businesses, fileRows)

/-- The address rule as the claim words it (for comparison with
`extractAddress`): the stripped first line of the text of the first
paragraph, in document order, whose immediate parent carries a recognized
container marker; empty when no paragraph has an accepted parent. -/
def claimedAddress (article : Node) : String :=
  match (article.findAllWithParent "p").find? (fun pr => acceptedParent pr.2) with
  | none => ""
  | some pr => pyStrip (pyFirstLine pr.1.innerText)

/-- Acceptance test of the amended address rule: the immediate parent
carries a recognized marker, and the paragraph's stripped text and the
stripped first line of that text are non-empty. -/
def amendedAccepts (pr : Node × Node) : Bool :=
  acceptedParent pr.2 && (pyStrip pr.1.innerText != "") &&
    (pyStrip (pyFirstLine (pyStrip pr.1.innerText)) != "")

/-- The amended address rule: the stripped first line of the stripped
text of the first paragraph accepted by `amendedAccepts`, in document
order; empty when no paragraph qualifies. -/
def amendedAddress (article : Node) : String :=
  match (article.findAllWithParent "p").find? amendedAccepts with
  | none => ""
  | some pr => pyStrip (pyFirstLine (pyStrip pr.1.innerText))

/-- A listing whose first marker-matching paragraph has whitespace-only
text, followed by a marker-matching paragraph with real text. -/
def c5CexArticle : Node :=
  Node.elem "article" []
    [Node.elem "h2" [] [Node.text "N"],
     Node.elem "div" ["textof"] [Node.elem "p" [] [Node.text "   "]],
     Node.elem "div" ["textof"] [Node.elem "p" [] [Node.text "Real Address"]]]

/-- The address scan returns the empty string on a list of paragraphs
none of which has an accepted parent. -/
theorem addressFromPairs_all_rejected (l : List (Node × Node))
    (h : ∀ pr ∈ l, acceptedParent pr.2 = false) :
    addressFromPairs l = "" := by
  induction l with
  | nil => rfl
  | cons pr rest ih =>
    obtain ⟨p, parent⟩ := pr
    have hpr : acceptedParent parent = false := h (p, parent) (by simp)
    simp only [addressFromPairs, hpr, Bool.false_eq_true, if_false]
    exact ih fun x hx => h x (List.mem_cons_of_mem _ hx)

/-- The address scan picks exactly the first paragraph accepted by
`amendedAccepts` and returns its stripped first line. -/
theorem addressFromPairs_eq_find (l : List (Node × Node)) :
    addressFromPairs l =
      match l.find? amendedAccepts with
      | none => ""
      | some pr => pyStrip (pyFirstLine (pyStrip pr.1.innerText)) := by
  induction l with
  | nil => rfl
  | cons pr rest ih =>
    obtain ⟨p, parent⟩ := pr
    by_cases h1 : acceptedParent parent = true
    · by_cases h2 : pyStrip (Node.innerText p) = ""
      · have ha : ¬ amendedAccepts (p, parent) = true := by
          simp [amendedAccepts, h2]
        rw [List.find?_cons_of_neg _ ha]
        simp only [addressFromPairs, h1, if_true, h2]
        simpa using ih
      · by_cases h3 : pyStrip (pyFirstLine (pyStrip (Node.innerText p))) = ""
        · have ha : ¬ amendedAccepts (p, parent) = true := by
            simp [amendedAccepts, h3]
          rw [List.find?_cons_of_neg _ ha]
          simp only [addressFromPairs, h1, if_true, h2, h3]
          simpa [h2] using ih
        · have ha : amendedAccepts (p, parent) = true := by
            simp [amendedAccepts, h1, h2, h3]
          rw [List.find?_cons_of_pos _ ha]
          simp [addressFromPairs, h1, h2, h3]
    · have ha : ¬ amendedAccepts (p, parent) = true := by
        simp [amendedAccepts, h1]
      rw [List.find?_cons_of_neg _ ha]
      simp only [addressFromPairs, h1, Bool.false_eq_true, if_false]
      exact ih

/-- C1: if two consecutively fetched pages each yield zero listing nodes
(threshold fixed at 2), the run stops right after the second one: the
fetched pages end with exactly those two, the accumulated listings are
unchanged, and the counter goes from 0 to 1 after the first empty page
before reaching 2 on the second. -/
theorem spec_c1 (f : Nat → Option Node) (page fuel : Nat) (acc : List Business)
    (fetched : List Nat) (d1 d2 : Node)
    (h1 : f page = some d1) (e1 : d1.findAllTag "article" = [])
    (h2 : f (page + 1) = some d2) (e2 : d2.findAllTag "article" = []) :
    scrapeAux f (fuel + 2) page 0 acc fetched =
      ⟨acc, fetched ++ [page, page + 1], true⟩ ∧
    scrapeAux f (fuel + 2) page 0 acc fetched =
      scrapeAux f (fuel + 1) (page + 1) 1 acc (fetched ++ [page]) := by
  have hstep : scrapeAux f (fuel + 2) page 0 acc fetched =
      scrapeAux f (fuel + 1) (page + 1) 1 acc (fetched ++ [page]) := by
    show scrapeAux f ((fuel + 1) + 1) page 0 acc fetched = _
    simp [scrapeAux, h1, e1]
  have hstop : scrapeAux f (fuel + 1) (page + 1) 1 acc (fetched ++ [page]) =
      ⟨acc, (fetched ++ [page]) ++ [page + 1], true⟩ := by
    simp [scrapeAux, h2, e2]
  refine ⟨?_, hstep⟩
  rw [hstep, hstop]
  simp

/-- Witness for C1: an oracle always returning an article-free page makes
the run stop after fetching exactly pages 1 and 2. -/
theorem spec_c1_witness :
    scrapeAux (fun _ => some (Node.elem "html" [] [])) 2 1 0 [] [] =
      ⟨[], [1, 2], true⟩ ∧
    (Node.elem "html" [] []).findAllTag "article" = [] :=
  ⟨(spec_c1 (fun _ => some (Node.elem "html" [] [])) 1 0 [] []
      (Node.elem "html" [] []) (Node.elem "html" [] []) rfl rfl rfl rfl).1,
   rfl⟩

/-- C2: a fetch that raises a transport error, returns 404, or returns
any other error status maps to the absence signal, and the driver then
stops at once for any counter value, fetching no further page and
returning the accumulated listings unchanged. -/
theorem spec_c2 (oracle : Nat → Except String (Nat × Node))
    (page c fuel : Nat) (acc : List Business) (fetched : List Nat)
    (h : (∃ e, oracle page = Except.error e) ∨
         (∃ doc, oracle page = Except.ok (404, doc)) ∨
         (∃ st doc, oracle page = Except.ok (st, doc) ∧ 400 ≤ st ∧ st < 600)) :
    scrapeAux (get_page_content oracle) (fuel + 1) page c acc fetched =
      ⟨acc, fetched ++ [page], true⟩ := by
  have hn : get_page_content oracle page = none := by
    rcases h with ⟨e, he⟩ | ⟨doc, hd⟩ | ⟨st, doc, hs, h4, h6⟩
    · simp [get_page_content, get_page_content_try, he]
    · simp [get_page_content, get_page_content_try, hd]
    · by_cases h404 : st = 404
      · simp [get_page_content, get_page_content_try, hs, h404]
      · simp [get_page_content, get_page_content_try, hs, h404, h4, h6]
  simp [scrapeAux, hn]

/-- Witness for C2: a transport-erroring oracle stops the run at page 5
with a counter of 1 and no accumulated listings lost. -/
theorem spec_c2_witness :
    scrapeAux (get_page_content (fun _ => Except.error "timeout")) 1 5 1 [] [] =
      ⟨[], [5], true⟩ :=
  spec_c2 (fun _ => Except.error "timeout") 5 1 0 [] [] (Or.inl ⟨"timeout", rfl⟩)

/-- C3: extraction fails exactly when the listing has no h2/h3 heading or
the name derived from the first such heading strips to the empty string;
otherwise it produces a listing. -/
theorem spec_c3 (article : Node) :
    extract_business_from_article article = none ↔
      article.findTag ["h2", "h3"] = none ∨
      ∃ t, article.findTag ["h2", "h3"] = some t ∧ derivedName t = "" := by
  cases h : article.findTag ["h2", "h3"] with
  | none => simp [extract_business_from_article, h]
  | some t =>
    by_cases hn : derivedName t = "" <;>
      simp [extract_business_from_article, h, hn]

/-- C4: when extraction succeeds, the name is the stripped text of the
first hyperlink inside the first h2/h3 heading when one exists, and the
stripped text of the heading itself otherwise. -/
theorem spec_c4 (article t : Node) (b : Business)
    (ht : article.findTag ["h2", "h3"] = some t)
    (hb : extract_business_from_article article = some b) :
    (∀ a, t.findTag ["a"] = some a → b.name = pyStrip a.innerText) ∧
    (t.findTag ["a"] = none → b.name = pyStrip t.innerText) := by
  simp only [extract_business_from_article, ht] at hb
  by_cases hn : derivedName t = ""
  · simp [hn] at hb
  · simp only [hn, if_false] at hb
    simp only [Option.some.injEq] at hb
    subst hb
    constructor
    · intro a ha
      simp [derivedName, ha]
    · intro ha
      simp [derivedName, ha]

/-- Witness for C4: a heading holding a hyperlink with text
" Café Test " yields the stripped hyperlink text as the name. -/
theorem spec_c4_witness :
    extract_business_from_article
        (Node.elem "article" []
          [Node.elem "h2" [] [Node.elem "a" [] [Node.text " Café Test "]]]) =
      some ⟨"Café Test", ""⟩ ∧
    (Business.mk "Café Test" "").name =
      pyStrip (Node.elem "a" [] [Node.text " Café Test "]).innerText :=
  ⟨rfl,
   (spec_c4
      (Node.elem "article" []
        [Node.elem "h2" [] [Node.elem "a" [] [Node.text " Café Test "]]])
      (Node.elem "h2" [] [Node.elem "a" [] [Node.text " Café Test "]])
      ⟨"Café Test", ""⟩ rfl rfl).1
     (Node.elem "a" [] [Node.text " Café Test "]) rfl⟩

/-- C5 (amended): the extracted address is the stripped first line of the
stripped text of the first marker-matching paragraph whose stripped text
(and its stripped first line) is non-empty; marker-matching paragraphs
with whitespace-only text are skipped, and the address is empty when no
paragraph qualifies. -/
theorem spec_c5_amended (article : Node) :
    extractAddress article = amendedAddress article :=
  addressFromPairs_eq_find (article.findAllWithParent "p")

/-- Counterexample to C5 as stated: in `c5CexArticle` the first
marker-matching paragraph has whitespace-only text, so the claimed rule
gives the empty address while the code scans on and returns the second
marker-matching paragraph's line. -/
theorem spec_c5_counterexample :
    extract_business_from_article c5CexArticle = some ⟨"N", "Real Address"⟩ ∧
    claimedAddress c5CexArticle = "" ∧
    extractAddress c5CexArticle ≠ claimedAddress c5CexArticle := by
  refine ⟨rfl, rfl, by decide⟩

/-- C6: when no paragraph of the listing has an accepted parent, a
listing with a valid name is still produced and its address is the empty
string. -/
theorem spec_c6 (article t : Node)
    (ht : article.findTag ["h2", "h3"] = some t)
    (hn : derivedName t ≠ "")
    (hp : ∀ pr ∈ article.findAllWithParent "p", acceptedParent pr.2 = false) :
    extract_business_from_article article = some ⟨derivedName t, ""⟩ := by
  have haddr : extractAddress article = "" :=
    addressFromPairs_all_rejected _ hp
  simp [extract_business_from_article, ht, hn, haddr]

/-- Witness for C6: a listing with heading text "Plain Name" and one
paragraph under an unrecognized container still extracts, with an empty
address. -/
theorem spec_c6_witness :
    extract_business_from_article
        (Node.elem "article" []
          [Node.elem "h2" [] [Node.text "Plain Name"],
           Node.elem "div" ["other"] [Node.elem "p" [] [Node.text "x"]]]) =
      some ⟨"Plain Name", ""⟩ :=
  spec_c6
    (Node.elem "article" []
      [Node.elem "h2" [] [Node.text "Plain Name"],
       Node.elem "div" ["other"] [Node.elem "p" [] [Node.text "x"]]])
    (Node.elem "h2" [] [Node.text "Plain Name"]) rfl (by decide) (by decide)

/-- C7: for every positive page index, page 1 maps to the bare category
base URL and any larger page N maps to the base URL followed by
"page/", the index and "/". -/
theorem spec_c7 (n : Nat) (_h : 0 < n) :
    (n = 1 → build_url n = base_url) ∧
    (1 < n → build_url n = base_url ++ "page/" ++ toString n ++ "/") := by
  constructor
  · intro h1
    simp [build_url, h1]
  · intro h1
    have hne : n ≠ 1 := Nat.ne_of_gt h1
    simp [build_url, hne]

/-- Witness for C7 at page 2. -/
theorem spec_c7_witness :
    (2 = 1 → build_url 2 = base_url) ∧
    (1 < 2 → build_url 2 = base_url ++ "page/" ++ toString 2 ++ "/") :=
  spec_c7 2 (by decide)

/-- C8: saving an empty listing sequence writes no file; saving N ≥ 1
listings writes the header row `Name`, `Address` followed by one row per
listing in input order, N + 1 rows in all. -/
theorem spec_c8 (businesses : List Business) :
    (businesses = [] → save_to_csv businesses = none) ∧
    (businesses ≠ [] →
      save_to_csv businesses =
        some (["Name", "Address"] :: businesses.map (fun b => [b.name, b.address])) ∧
      ∀ rows, save_to_csv businesses = some rows →
        rows.length = businesses.length + 1) := by
  constructor
  · intro h
    simp [save_to_csv, h]
  · intro h
    have he : businesses.isEmpty = false := by
      cases businesses with
      | nil => exact absurd rfl h
      | cons a l => rfl
    refine ⟨by simp [save_to_csv, he], ?_⟩
    intro rows hrows
    simp only [save_to_csv, he, Bool.false_eq_true, if_false,
      Option.some.injEq] at hrows
    subst hrows
    simp

/-- Witness for C8 at the empty input and a one-listing input. -/
theorem spec_c8_witness :
    save_to_csv [] = none ∧
    save_to_csv [⟨"A", "B"⟩] = some [["Name", "Address"], ["A", "B"]] :=
  ⟨(spec_c8 []).1 rfl,
   ((spec_c8 [⟨"A", "B"⟩]).2 (by simp)).1⟩

/-- C9: no failure escapes the top-level run: a fetch-level exception is
caught and becomes the absence signal, a failed extraction is silently
skipped, and the composed run always produces a value. -/
theorem spec_c9 (oracle : Nat → Except String (Nat × Node)) (fuel : Nat) :
    (∀ page e, get_page_content_try oracle page = Except.error e →
       get_page_content oracle page = none) ∧
    (∀ (article : Node) (rest : List Node),
       extract_business_from_article article = none →
       (article :: rest).filterMap extract_business_from_article =
         rest.filterMap extract_business_from_article) ∧
    (∃ v, mainRun oracle fuel = Except.ok v) := by
  refine ⟨?_, ?_, ⟨_, rfl⟩⟩
  · intro page e h
    simp [get_page_content, h]
  · intro article rest h
    simp [List.filterMap_cons, h]

/-- Witness for C9: a transport-erroring oracle yields the absence
signal, a headingless article is skipped, and the run still returns a
value. -/
theorem spec_c9_witness :
    get_page_content (fun _ => Except.error "timeout") 1 = none ∧
    List.filterMap extract_business_from_article [Node.elem "article" [] []] = [] ∧
    (∃ v, mainRun (fun _ => Except.error "timeout") 1 = Except.ok v) :=
  ⟨(spec_c9 (fun _ => Except.error "timeout") 1).1 1 "timeout" rfl,
   (spec_c9 (fun _ => Except.error "timeout") 1).2.1 (Node.elem "article" [] []) [] rfl,
   (spec_c9 (fun _ => Except.error "timeout") 1).2.2⟩

/-- C10: the pipeline is deterministic: two runs over pointwise-identical
sequences of page-fetch results accumulate identical listings and write
identical rows. -/
theorem spec_c10 (f g : Nat → Option Node) (fuel : Nat)
    (h : ∀ n, f n = g n) :
    scrapeAux f fuel 1 0 [] [] = scrapeAux g fuel 1 0 [] [] ∧
    save_to_csv (scrapeAux f fuel 1 0 [] []).businesses =
      save_to_csv (scrapeAux g fuel 1 0 [] []).businesses := by
  have hfg : f = g := funext h
  subst hfg
  exact ⟨rfl, rfl⟩

/-- Witness for C10: two syntactically identical all-absent fetch
sequences give equal results. -/
theorem spec_c10_witness :
    scrapeAux (fun _ => none) 3 1 0 [] [] = scrapeAux (fun _ => none) 3 1 0 [] [] ∧
    save_to_csv (scrapeAux (fun _ => none) 3 1 0 [] []).businesses =
      save_to_csv (scrapeAux (fun _ => none) 3 1 0 [] []).businesses :=
  spec_c10 (fun _ => none) (fun _ => none) 3 (fun _ => rfl)
